import Mathlib

/-!
Shallow embedding of `sticker_bot.py` (Telegram sticker bot): the `MediaInfo`
dataclass with its `to_dict` serialization, the per-user state dictionary
`user_states` with `store_media_state`, `_clean_old_states` and
`get_last_media`, the state effects of `handle_media` / `handle_animation`,
the media resolution performed by `stickerify`, and the retry structure of
`kang_sticker` on a STICKERSET_INVALID platform error.

Python dictionaries keyed by user id are modelled as association lists with
unique-key update semantics; timestamps (`datetime.utcnow()`, ISO strings)
are modelled as integers counting seconds, so that
`(current_time - last_update).total_seconds() > cleanup_interval` becomes an
integer comparison.
-/

/-- The `type` field of `MediaInfo`: one of the string tags
`photo` / `sticker` / `animation` / `video` / `document` used in the source. -/
inductive MediaType where
  | photo
  | sticker
  | animation
  | video
  | document
deriving DecidableEq, Repr

/-- The `MediaInfo` dataclass of `sticker_bot.py` (lines 84-98): `type` and
`file_id` are required; `is_animated` and `is_video` default to `False`;
`mime_type`, `width`, `height`, `file_size` default to `None`. -/
structure MediaInfo where
  type : MediaType
  file_id : String
  is_animated : Bool := false
  is_video : Bool := false
  mime_type : Option String := none
  width : Option Nat := none
  height : Option Nat := none
  file_size : Option Nat := none
deriving DecidableEq, Repr

/-- The dictionary produced by `MediaInfo.to_dict`: each field is present
(`some`) or absent (`none`).  In Python the dict maps field-name strings to
values; here absence of a key is `none` on the corresponding field. -/
structure MediaDict where
  type : Option MediaType
  file_id : Option String
  is_animated : Option Bool
  is_video : Option Bool
  mime_type : Option String
  width : Option Nat
  height : Option Nat
  file_size : Option Nat
deriving DecidableEq, Repr

/-- Embeds `MediaInfo.to_dict` (line 96-98): a dict comprehension keeping each field whose value is not None.  `type` and `file_id` are strings and `is_animated` /
`is_video` are booleans, none of which can be `None`, so they are always kept
(in particular `False` is kept, since `False is not None`); the four optional
fields are kept exactly when they are not `None`. -/
def MediaInfo.to_dict (m : MediaInfo) : MediaDict :=
  { type := some m.type
    file_id := some m.file_id
    is_animated := some m.is_animated
    is_video := some m.is_video
    mime_type := m.mime_type
    width := m.width
    height := m.height
    file_size := m.file_size }

/-- Reconstruction `MediaInfo(**d)`: fails (Python `TypeError`) when the
required `type` or `file_id` key is absent; every absent optional key falls
back to the dataclass default (`False` for the booleans, `None` otherwise). -/
def MediaInfo.from_dict (d : MediaDict) : Option MediaInfo :=
  match d.type, d.file_id with
  | some t, some f =>
      some { type := t
             file_id := f
             is_animated := d.is_animated.getD false
             is_video := d.is_video.getD false
             mime_type := d.mime_type
             width := d.width
             height := d.height
             file_size := d.file_size }
  | _, _ => none

/-- One value of the `user_states` dictionary (a `Dict[str, Any]` in the
source).  The keys that appear in `sticker_bot.py` are `last_media`
(written by `store_media_state`), `last_update` (written by
`store_media_state`, read by `_clean_old_states`) and `pack_name`
(popped by `kang_sticker` line 586). -/
structure UserState where
  last_media : Option MediaDict
  last_update : Int
  pack_name : Option String
deriving DecidableEq, Repr

/-- The store `self.user_states : Dict[int, Dict[str, Any]]` as an association list
with unique keys. -/
abbrev Store : Type := List (Nat × UserState)

/-- Dictionary lookup `self.user_states[user_id]` / `user_id in self.user_states`. -/
def getState (uid : Nat) : Store → Option UserState
  | [] => none
  | (k, v) :: rest => if k = uid then some v else getState uid rest

/-- Dictionary assignment `self.user_states[user_id] = ...`: replaces the
value at the key when present, appends the binding otherwise. -/
def setState (uid : Nat) (s : UserState) : Store → Store
  | [] => [(uid, s)]
  | (k, v) :: rest => if k = uid then (uid, s) :: rest else (k, v) :: setState uid s rest

/-- The constant `self.cleanup_interval = 3600` (seconds). -/
def cleanup_interval : Int := 3600

/-- The constant `self.max_file_size = 50 * 1024 * 1024`. -/
def max_file_size : Nat := 50 * 1024 * 1024

/-- The expiry test of `_clean_old_states` (line 149):
`(current_time - last_update).total_seconds() > self.cleanup_interval`. -/
def UserState.isExpired (now : Int) (s : UserState) : Bool :=
  cleanup_interval < now - s.last_update

/-- Embeds `StickerBot._clean_old_states` (lines 142-153): collects every `user_id`
whose state is expired at `current_time` and deletes those entries; surviving
entries are untouched and keep their order. -/
def clean_old_states (now : Int) (states : Store) : Store :=
  List.filter (fun p => ! p.2.isExpired now) states

/-- Embeds `StickerBot.store_media_state` (lines 192-197): assigns a fresh
two-key dictionary holding last_media = media_info.to_dict() and last_update = now
to `self.user_states[user_id]`.  Any other key the previous state held
(such as `pack_name`) is not carried over because the whole dictionary
is replaced. -/
def store_media_state (now : Int) (uid : Nat) (media_info : MediaInfo) (states : Store) : Store :=
  setState uid
    { last_media := some media_info.to_dict
      last_update := now
      pack_name := none } states

/-- One entry of `message.photo` (a Telegram `PhotoSize`). -/
structure PhotoSize where
  file_id : String
  width : Nat
  height : Nat
  file_size : Option Nat
deriving DecidableEq, Repr

/-- The field `message.sticker` (a Telegram `Sticker`). -/
structure TgSticker where
  file_id : String
  is_animated : Bool
  is_video : Bool
  width : Nat
  height : Nat
  file_size : Option Nat
deriving DecidableEq, Repr

/-- The field `message.animation` (a Telegram `Animation`); the code reads
`file_size` without a `None` check, so it is modelled as present. -/
structure TgAnimation where
  file_id : String
  width : Nat
  height : Nat
  file_size : Nat
deriving DecidableEq, Repr

/-- The field `message.video` (a Telegram `Video`); `file_size` read unconditionally. -/
structure TgVideo where
  file_id : String
  width : Nat
  height : Nat
  file_size : Nat
deriving DecidableEq, Repr

/-- The field `message.document` (a Telegram `Document`); `file_size` read
unconditionally, `mime_type` may be `None`. -/
structure TgDocument where
  file_id : String
  mime_type : Option String
  file_size : Nat
deriving DecidableEq, Repr

/-- The media attachments of one Telegram message.  `photo` is a list of
sizes and is truthy in Python exactly when non-empty; the other fields are
truthy exactly when not `None`. -/
structure MsgMedia where
  photo : List PhotoSize := []
  sticker : Option TgSticker := none
  animation : Option TgAnimation := none
  video : Option TgVideo := none
  document : Option TgDocument := none
deriving DecidableEq, Repr

/-- An incoming message: its own media plus `message.reply_to_message`
(whose own media fields are all that the code reads from it). -/
structure Message where
  media : MsgMedia := {}
  reply_to_message : Option MsgMedia := none
deriving DecidableEq, Repr

/-- The `MediaInfo` with type tag photo built from `photo[-1]` as in lines 210-216 / 291-298. -/
def photoToMediaInfo (p : PhotoSize) : MediaInfo :=
  { type := MediaType.photo
    file_id := p.file_id
    width := some p.width
    height := some p.height
    file_size := p.file_size }

/-- The `MediaInfo` with type tag sticker built from a `Sticker` as in
lines 219-227 / 299-308. -/
def stickerToMediaInfo (s : TgSticker) : MediaInfo :=
  { type := MediaType.sticker
    file_id := s.file_id
    is_animated := s.is_animated
    is_video := s.is_video
    width := some s.width
    height := some s.height
    file_size := s.file_size }

/-- The `MediaInfo` with type tag animation built from an `Animation` as in
lines 230-236 / 310-316. -/
def animToMediaInfo (a : TgAnimation) : MediaInfo :=
  { type := MediaType.animation
    file_id := a.file_id
    width := some a.width
    height := some a.height
    file_size := some a.file_size }

/-- The `MediaInfo` with type tag video built from a `Video` as in
lines 242-248 / 320-326. -/
def videoToMediaInfo (v : TgVideo) : MediaInfo :=
  { type := MediaType.video
    file_id := v.file_id
    width := some v.width
    height := some v.height
    file_size := some v.file_size }

/-- The `MediaInfo` with type tag document built from a `Document` as in
lines 255-260 / 330-335. -/
def docToMediaInfo (d : TgDocument) : MediaInfo :=
  { type := MediaType.document
    file_id := d.file_id
    mime_type := d.mime_type
    file_size := some d.file_size }

/-- The stored-lastMedia tier of `get_last_media` (lines 337-343): when the
user has a state holding a `last_media` dict, and either no `required_type`
was given or the type entry of the dict equals it, return `MediaInfo(**last_media)`.
A missing `type` key (`KeyError`) or a failing reconstruction (`TypeError`)
is swallowed by the `except Exception` at line 347, which returns `None`. -/
def lastMediaTier (states : Store) (uid : Nat) (required_type : Option MediaType) :
    Option MediaInfo :=
  match getState uid states with
  | none => none
  | some st =>
      match st.last_media with
      | none => none
      | some lm =>
          match required_type with
          | none => MediaInfo.from_dict lm
          | some rt =>
              match lm.type with
              | none => none
              | some t => if t = rt then MediaInfo.from_dict lm else none

/-- Embeds `StickerBot.get_last_media` (lines 280-349).  The reply tier runs first:
the `photo` / `sticker` / `animation` / `video` / `document` fields of the reply
are tried in that order, with a `ValueError` (modelled as `Except.error`)
raised for an oversized video or document; a reply carrying none of these
falls through to the stored tier, as does an absent reply.  The
`required_type` filter is consulted only in the stored tier. -/
def get_last_media (states : Store) (uid : Nat) (message : Message)
    (required_type : Option MediaType) : Except String (Option MediaInfo) :=
  match message.reply_to_message with
  | none => Except.ok (lastMediaTier states uid required_type)
  | some reply =>
      match reply.photo.getLast? with
      | some p => Except.ok (some (photoToMediaInfo p))
      | none =>
      match reply.sticker with
      | some s => Except.ok (some (stickerToMediaInfo s))
      | none =>
      match reply.animation with
      | some a => Except.ok (some (animToMediaInfo a))
      | none =>
      match reply.video with
      | some v =>
          if max_file_size < v.file_size then Except.error "Video file too large"
          else Except.ok (some (videoToMediaInfo v))
      | none =>
      match reply.document with
      | some d =>
          if max_file_size < d.file_size then Except.error "File too large"
          else Except.ok (some (docToMediaInfo d))
      | none => Except.ok (lastMediaTier states uid required_type)

/-- The media-resolution step of `StickerBot.stickerify` (lines 361-371):
a photo attached to the invoking message itself is used directly; otherwise
`get_last_media` with required type photo is consulted. -/
def stickerify_resolve (states : Store) (uid : Nat) (message : Message) :
    Except String (Option MediaInfo) :=
  match message.media.photo.getLast? with
  | some p => Except.ok (some (photoToMediaInfo p))
  | none => get_last_media states uid message (some MediaType.photo)

/-- Membership test for the three supported image mime types
(`self.supported_image_types`); `None in set` is `False`. -/
def supported_image_type : Option String → Bool
  | some s => s = "image/jpeg" || s = "image/png" || s = "image/webp"
  | none => false

/-- Membership test for the three supported animation mime types
(`self.supported_animation_types`). -/
def supported_animation_type : Option String → Bool
  | some s => s = "video/mp4" || s = "image/gif" || s = "application/x-tgsticker"
  | none => false

/-- The `user_states` effect of `StickerBot.handle_animation` (lines 782-845):
with `animation = message.animation or message.video`, an oversized file is
reported and the handler returns without storing; otherwise the media is
stored with media_type chosen as animation when message.animation is set and video otherwise.
When both fields are `None` (a document routed here by `handle_media`), the
attribute access `animation.file_size` raises, the exception is caught by
`handle_error`, and no store happens. -/
def handle_animation_state (now : Int) (uid : Nat) (m : MsgMedia) (states : Store) : Store :=
  match m.animation with
  | some a =>
      if max_file_size < a.file_size then states
      else store_media_state now uid (animToMediaInfo a) states
  | none =>
      match m.video with
      | some v =>
          if max_file_size < v.file_size then states
          else store_media_state now uid (videoToMediaInfo v) states
      | none => states

/-- The `user_states` effect of `StickerBot.handle_sticker` (lines 726-780):
stores the sticker unconditionally. -/
def handle_sticker_state (now : Int) (uid : Nat) (s : TgSticker) (states : Store) : Store :=
  store_media_state now uid (stickerToMediaInfo s) states

/-- The `user_states` effect of `StickerBot.handle_media` (lines 199-278).
`_clean_old_states` runs first.  Then the photo / sticker / animation /
video / document branches build `media_info` and delegate to the per-kind
handler (whose own store effect is included), and finally
`if media_info: self.store_media_state(user_id, media_info)` runs.  A
`ValueError` raised by the video / document size checks aborts before
`media_info` is set (caught at line 275), and the unsupported-document
branch returns early, so in those cases no store happens.  For a document
with a supported animation mime type, `handle_animation` raises an
`AttributeError` on `animation.file_size` but catches it itself (its own
except at line 844) and returns normally without storing, so the trailing
store of `handle_media` still runs on the document descriptor. -/
def handle_media_state (now : Int) (uid : Nat) (m : MsgMedia) (states : Store) : Store :=
  let st := clean_old_states now states
  match m.photo.getLast? with
  | some p => store_media_state now uid (photoToMediaInfo p) st
  | none =>
  match m.sticker with
  | some s => store_media_state now uid (stickerToMediaInfo s) (handle_sticker_state now uid s st)
  | none =>
  match m.animation with
  | some a => store_media_state now uid (animToMediaInfo a) (handle_animation_state now uid m st)
  | none =>
  match m.video with
  | some v =>
      if max_file_size < v.file_size then st
      else store_media_state now uid (videoToMediaInfo v) (handle_animation_state now uid m st)
  | none =>
  match m.document with
  | some d =>
      if max_file_size < d.file_size then st
      else if supported_image_type d.mime_type then
        store_media_state now uid (docToMediaInfo d) st
      else if supported_animation_type d.mime_type then
        store_media_state now uid (docToMediaInfo d) st
      else st
  | none => st

/-- Outcome of one attempt of the kang operation body (lines 493-590) as
decided by the platform: success, a `BadRequest` whose text contains
STICKERSET_INVALID, or any other `BadRequest`. -/
inductive AttemptOutcome where
  | ok
  | stickersetInvalid
  | otherBadRequest
deriving DecidableEq, Repr

/-- Result of running the kang handler with a bounded call stack. -/
inductive KangResult where
  | success
  | errorReported
  | outOfFuel
deriving DecidableEq, Repr

/-- The retry structure of `StickerBot.kang_sticker` (lines 578-590): on a
`BadRequest` containing STICKERSET_INVALID the handler pops `pack_name` and
recursively awaits itself with no retry counter; any other `BadRequest` is
re-raised and reported by `handle_error`.  `attempt i` is the platform
outcome of the i-th attempt; `fuel` bounds the recursion depth available to
the model — the Python code carries no such bound, so exhausting any fuel
models a recursion that has not terminated. -/
def kang_sticker_retry (attempt : Nat → AttemptOutcome) : Nat → Nat → KangResult
  | 0, _ => KangResult.outOfFuel
  | fuel + 1, i =>
      match attempt i with
      | AttemptOutcome.ok => KangResult.success
      | AttemptOutcome.stickersetInvalid => kang_sticker_retry attempt fuel (i + 1)
      | AttemptOutcome.otherBadRequest => KangResult.errorReported

/-- Modelled from the spec: the meme-builder WorkflowEngine of spec sections
2, 3 and 4.3 is absent from `src/sticker_bot.py` (no meme command or workflow
state exists in the source file); its stages are
AwaitingImage → AwaitingTopText → AwaitingBottomText → Done (removed).
Each constructor carries exactly the fields the spec says are populated at
that stage (`photoRef` once past AwaitingImage, `topText` once past
AwaitingTopText), which encodes the stage-order invariant of section 3. -/
inductive WorkflowState where
  | AwaitingImage
  | AwaitingTopText (photoRef : MediaInfo)
  | AwaitingBottomText (photoRef : MediaInfo) (topText : String)
deriving DecidableEq, Repr

/-- Modelled from the spec: one user input delivered to a pending workflow —
a piece of media or a text message. -/
inductive WorkflowInput where
  | media (m : MediaInfo)
  | text (s : String)
deriving DecidableEq, Repr

/-- Modelled from the spec: the observable event fired by one workflow step —
a re-prompt (invalid input, state unchanged), an advance, or the render call
with the collected image, top text and bottom text. -/
inductive WorkflowEvent where
  | reprompted
  | advanced
  | rendered (image : MediaInfo) (top bottom : String)
deriving DecidableEq, Repr

/-- Modelled from the spec: the per-user workflow slot of UserStateStore,
as an association list keyed by user id. -/
abbrev WfMap : Type := List (Nat × WorkflowState)

/-- Modelled from the spec: lookup of the pending workflow of one user. -/
def getWf (uid : Nat) : WfMap → Option WorkflowState
  | [] => none
  | (k, v) :: rest => if k = uid then some v else getWf uid rest

/-- Modelled from the spec: store the pending workflow of one user. -/
def setWf (uid : Nat) (w : WorkflowState) : WfMap → WfMap
  | [] => [(uid, w)]
  | (k, v) :: rest => if k = uid then (uid, w) :: rest else (k, v) :: setWf uid w rest

/-- Modelled from the spec: remove the workflow of one user (clearWorkflow /
the removal after Done). -/
def removeWf (uid : Nat) : WfMap → WfMap
  | [] => []
  | (k, v) :: rest => if k = uid then removeWf uid rest else (k, v) :: removeWf uid rest

/-- Modelled from the spec: getOrStartWorkflow — starting the workflow puts
the user at stage AwaitingImage, discarding any prior partial input (last
command wins, no merge). -/
def startWorkflow (uid : Nat) (wm : WfMap) : WfMap :=
  setWf uid WorkflowState.AwaitingImage wm

/-- Modelled from the spec: a text input is invalid when it is empty after
trimming whitespace, i.e. when every one of its characters is whitespace. -/
def blankText (s : String) : Bool := s.data.all Char.isWhitespace

/-- Modelled from the spec: advanceWorkflow — applies one step of input
according to the current stage.  AwaitingImage accepts a MediaDescriptor of
kind Photo; the two text stages accept a text that is non-empty after trim;
any invalid input fires a re-prompt and leaves the state unchanged.  The
AwaitingBottomText step triggers the render call and the workflow is removed
from the user state immediately afterwards.  A missing workflow re-derives
from AwaitingImage (spec section 5). -/
def stepWorkflow (uid : Nat) (inp : WorkflowInput) (wm : WfMap) : WfMap × WorkflowEvent :=
  match (getWf uid wm).getD WorkflowState.AwaitingImage, inp with
  | WorkflowState.AwaitingImage, WorkflowInput.media m =>
      if m.type = MediaType.photo then
        (setWf uid (WorkflowState.AwaitingTopText m) wm, WorkflowEvent.advanced)
      else (wm, WorkflowEvent.reprompted)
  | WorkflowState.AwaitingImage, WorkflowInput.text _ => (wm, WorkflowEvent.reprompted)
  | WorkflowState.AwaitingTopText img, WorkflowInput.text s =>
      if blankText s then (wm, WorkflowEvent.reprompted)
      else (setWf uid (WorkflowState.AwaitingBottomText img s) wm, WorkflowEvent.advanced)
  | WorkflowState.AwaitingTopText _, WorkflowInput.media _ => (wm, WorkflowEvent.reprompted)
  | WorkflowState.AwaitingBottomText img top, WorkflowInput.text s =>
      if blankText s then (wm, WorkflowEvent.reprompted)
      else (removeWf uid wm, WorkflowEvent.rendered img top s)
  | WorkflowState.AwaitingBottomText _ _, WorkflowInput.media _ => (wm, WorkflowEvent.reprompted)

/-- Repeated `store_media_state` calls for one user, oldest first. -/
def applyStores (uid : Nat) (calls : List (Int × MediaInfo)) (states : Store) : Store :=
  calls.foldl (fun st c => store_media_state c.1 uid c.2 st) states

/-- A concrete photo MediaInfo, P1 of the spec scenario. -/
def P1 : MediaInfo :=
  { type := MediaType.photo
    file_id := "AgACP1"
    width := some 100
    height := some 100
    file_size := some 1000 }

/-- A concrete second photo, P2 of the spec scenario, as the `PhotoSize` of
the message being replied to. -/
def P2size : PhotoSize :=
  { file_id := "AgACP2", width := 200, height := 150, file_size := some 2000 }

/-- A concrete video-sticker MediaInfo, used for sequences of stores. -/
def S1 : MediaInfo :=
  { type := MediaType.sticker
    file_id := "CAACS1"
    is_video := true
    width := some 512
    height := some 512
    file_size := some 4096 }

/-- A concrete Telegram sticker carried by a reply message. -/
def Sdemo : TgSticker :=
  { file_id := "CAACdemo"
    is_animated := false
    is_video := false
    width := 512
    height := 512
    file_size := some 4096 }

/-- A command message with no media of its own that replies to a message
carrying photo P2. -/
def msgReplyP2 : Message :=
  { media := {}, reply_to_message := some { photo := [P2size] } }

/-- A command message with no media of its own that replies to a message
carrying a sticker. -/
def msgReplySticker : Message :=
  { media := {}, reply_to_message := some { sticker := some Sdemo } }

/-- A bare command message: no media, no reply. -/
def msgPlain : Message := {}

/-- A user state holding a pack_name key (the key popped by `kang_sticker`
line 586), for the frame-effect counterexample. -/
def statePack : UserState :=
  { last_media := none, last_update := 0, pack_name := some "pack_7_1_by_bot" }

/-- A user state storing P1 whose last_update is far in the past. -/
def stExpired : UserState :=
  { last_media := some P1.to_dict, last_update := 0, pack_name := none }

/-- A user state storing P1 whose last_update is recent (not expired at
time 100000). -/
def stFresh : UserState :=
  { last_media := some P1.to_dict, last_update := 99000, pack_name := none }

/-- An animation larger than `max_file_size` (52428800 bytes). -/
def bigAnim : TgAnimation :=
  { file_id := "AgADbig", width := 320, height := 240, file_size := 52428801 }

/-- A message carrying only the oversized animation. -/
def msgBigAnim : MsgMedia := { animation := some bigAnim }

theorem getState_setState_self (uid : Nat) (s : UserState) (states : Store) :
    getState uid (setState uid s states) = some s := by
  induction states with
  | nil => simp [setState, getState]
  | cons hd tl ih =>
      by_cases h : hd.1 = uid
      · simp [setState, getState, h]
      · simp [setState, getState, h, ih]

theorem getState_setState_ne (uid uid2 : Nat) (s : UserState) (states : Store)
    (h : uid2 ≠ uid) :
    getState uid2 (setState uid s states) = getState uid2 states := by
  have h2 : uid ≠ uid2 := Ne.symm h
  induction states with
  | nil => simp [setState, getState, h2]
  | cons hd tl ih =>
      by_cases hk : hd.1 = uid
      · simp [setState, getState, hk, h2, hk ▸ h2]
      · by_cases hk2 : hd.1 = uid2
        · simp [setState, getState, hk, hk2, h]
        · simp [setState, getState, hk, hk2, ih]

/-- Round trip used throughout: rebuilding a `MediaInfo` from its `to_dict`
restores the original value. -/
theorem from_dict_to_dict (m : MediaInfo) : MediaInfo.from_dict m.to_dict = some m := by
  cases m
  rfl

/-- C10: MediaInfo serialization round-trips: for every MediaInfo value m,
reconstructing via MediaInfo(**m.to_dict()) yields a value equal to m —
to_dict drops exactly the fields that are None (the boolean False fields are
retained, since False is not None), and the dataclass defaults restore the
dropped fields to None. -/
theorem C10_mediainfo_roundtrip (m : MediaInfo) :
    MediaInfo.from_dict m.to_dict = some m ∧
    m.to_dict.is_animated = some m.is_animated ∧
    m.to_dict.is_video = some m.is_video := by
  refine ⟨from_dict_to_dict m, rfl, rfl⟩

theorem getWf_setWf_self (uid : Nat) (w : WorkflowState) (wm : WfMap) :
    getWf uid (setWf uid w wm) = some w := by
  induction wm with
  | nil => simp [setWf, getWf]
  | cons hd tl ih =>
      by_cases h : hd.1 = uid
      · simp [setWf, getWf, h]
      · simp [setWf, getWf, h, ih]

theorem getWf_removeWf_self (uid : Nat) (wm : WfMap) :
    getWf uid (removeWf uid wm) = none := by
  induction wm with
  | nil => rfl
  | cons hd tl ih =>
      by_cases h : hd.1 = uid
      · simp [removeWf, h, ih]
      · simp [removeWf, getWf, h, ih]

theorem from_dict_type (d : MediaDict) (mi : MediaInfo)
    (h : MediaInfo.from_dict d = some mi) : d.type = some mi.type := by
  unfold MediaInfo.from_dict at h
  cases ht : d.type with
  | none => rw [ht] at h; simp at h
  | some t =>
      cases hf : d.file_id with
      | none => rw [ht, hf] at h; simp at h
      | some f =>
          rw [ht, hf] at h
          simp only [Option.some.injEq] at h
          subst h
          simp [ht]

theorem lastMediaTier_after_store (now : Int) (uid : Nat) (m : MediaInfo) (states : Store) :
    lastMediaTier (store_media_state now uid m states) uid none = some m := by
  unfold lastMediaTier store_media_state
  rw [getState_setState_self]
  simp [from_dict_to_dict]

theorem lastMediaTier_applyStores (uid : Nat) (calls : List (Int × MediaInfo)) (states : Store)
    (h : calls ≠ []) :
    lastMediaTier (applyStores uid calls states) uid none = some (calls.getLast h).2 := by
  induction calls generalizing states with
  | nil => exact absurd rfl h
  | cons c rest ih =>
      cases rest with
      | nil =>
          show lastMediaTier (store_media_state c.1 uid c.2 states) uid none = _
          rw [lastMediaTier_after_store]
          rfl
      | cons c2 r2 =>
          have hne : (c2 :: r2 : List (Int × MediaInfo)) ≠ [] := by simp
          have hfold : applyStores uid (c :: c2 :: r2) states
              = applyStores uid (c2 :: r2) (store_media_state c.1 uid c.2 states) := rfl
          rw [hfold, ih (store_media_state c.1 uid c.2 states) hne]
          simp [List.getLast_cons]

/-- Claim C1: media resolution follows the fixed precedence
direct > reply > stored lastMedia.  For the stickerify command: a photo
attached to the invoking message itself is returned; otherwise a photo or
sticker carried by the replied-to message is returned; with no direct photo
and no reply the stored-lastMedia tier decides.  In particular, after
storing photo P1 as lastMedia, resolving a reply to a different photo P2
with required kind photo returns P2, not P1. -/
theorem C1_resolution_precedence (states : Store) (uid : Nat) (message : Message) :
    (∀ p, message.media.photo.getLast? = some p →
        stickerify_resolve states uid message = Except.ok (some (photoToMediaInfo p))) ∧
    (∀ reply p, message.media.photo = [] → message.reply_to_message = some reply →
        reply.photo.getLast? = some p →
        stickerify_resolve states uid message = Except.ok (some (photoToMediaInfo p))) ∧
    (∀ reply s, message.media.photo = [] → message.reply_to_message = some reply →
        reply.photo = [] → reply.sticker = some s →
        stickerify_resolve states uid message = Except.ok (some (stickerToMediaInfo s))) ∧
    (message.media.photo = [] → message.reply_to_message = none →
        stickerify_resolve states uid message =
          Except.ok (lastMediaTier states uid (some MediaType.photo))) ∧
    (stickerify_resolve (store_media_state 0 7 P1 []) 7 msgReplyP2 =
        Except.ok (some (photoToMediaInfo P2size)) ∧ photoToMediaInfo P2size ≠ P1) := by
  refine ⟨?_, ?_, ?_, ?_, rfl, by decide⟩
  · intro p hp
    simp [stickerify_resolve, hp]
  · intro reply p h0 hr hp
    simp [stickerify_resolve, get_last_media, h0, hr, hp]
  · intro reply s h0 hr hrp hs
    simp [stickerify_resolve, get_last_media, h0, hr, hrp, hs]
  · intro h0 hr
    simp [stickerify_resolve, get_last_media, h0, hr]

/-- Witness for C1: with P1 stored as lastMedia for user 7, resolving the
command that replies to photo P2 returns P2 via the reply tier. -/
theorem C1_resolution_precedence_witness :
    stickerify_resolve (store_media_state 0 7 P1 []) 7 msgReplyP2 =
      Except.ok (some (photoToMediaInfo P2size)) :=
  (C1_resolution_precedence (store_media_state 0 7 P1 []) 7 msgReplyP2).2.1
    { photo := [P2size] } P2size rfl rfl rfl

/-- Claim C2 (spec-modelled): the meme-builder workflow behaves as a per-user
state machine.  Starting a workflow puts the user at AwaitingImage; a
non-photo input there fires a re-prompt and leaves the map unchanged;
sending photo then text then text drives the stage through
AwaitingImage → AwaitingTopText → AwaitingBottomText, the last step fires
the render call with the collected image and texts, and the workflow is
removed from the user state. -/
theorem C2_meme_workflow (wm : WfMap) (uid : Nat) (m : MediaInfo) (t1 t2 bad : String)
    (hm : m.type = MediaType.photo) (h1 : blankText t1 = false)
    (h2 : blankText t2 = false) :
    getWf uid (startWorkflow uid wm) = some WorkflowState.AwaitingImage ∧
    stepWorkflow uid (WorkflowInput.text bad) (startWorkflow uid wm) =
      (startWorkflow uid wm, WorkflowEvent.reprompted) ∧
    stepWorkflow uid (WorkflowInput.media m) (startWorkflow uid wm) =
      (setWf uid (WorkflowState.AwaitingTopText m) (startWorkflow uid wm),
       WorkflowEvent.advanced) ∧
    stepWorkflow uid (WorkflowInput.text t1)
        (setWf uid (WorkflowState.AwaitingTopText m) (startWorkflow uid wm)) =
      (setWf uid (WorkflowState.AwaitingBottomText m t1)
         (setWf uid (WorkflowState.AwaitingTopText m) (startWorkflow uid wm)),
       WorkflowEvent.advanced) ∧
    stepWorkflow uid (WorkflowInput.text t2)
        (setWf uid (WorkflowState.AwaitingBottomText m t1)
           (setWf uid (WorkflowState.AwaitingTopText m) (startWorkflow uid wm))) =
      (removeWf uid
         (setWf uid (WorkflowState.AwaitingBottomText m t1)
            (setWf uid (WorkflowState.AwaitingTopText m) (startWorkflow uid wm))),
       WorkflowEvent.rendered m t1 t2) ∧
    getWf uid (removeWf uid
        (setWf uid (WorkflowState.AwaitingBottomText m t1)
           (setWf uid (WorkflowState.AwaitingTopText m) (startWorkflow uid wm)))) = none := by
  refine ⟨?_, ?_, ?_, ?_, ?_, ?_⟩
  · exact getWf_setWf_self uid WorkflowState.AwaitingImage wm
  · simp [stepWorkflow, startWorkflow, getWf_setWf_self]
  · simp [stepWorkflow, startWorkflow, getWf_setWf_self, hm]
  · simp [stepWorkflow, getWf_setWf_self, h1]
  · simp [stepWorkflow, getWf_setWf_self, h2]
  · exact getWf_removeWf_self uid _

/-- Witness for C2: user 7, photo P1, texts TOP and BOTTOM; a text while
AwaitingImage re-prompts without a state change, and after the full run the
workflow is gone. -/
theorem C2_meme_workflow_witness :
    stepWorkflow 7 (WorkflowInput.text "nope") (startWorkflow 7 []) =
      (startWorkflow 7 [], WorkflowEvent.reprompted) ∧
    stepWorkflow 7 (WorkflowInput.text "BOTTOM")
        (setWf 7 (WorkflowState.AwaitingBottomText P1 "TOP")
           (setWf 7 (WorkflowState.AwaitingTopText P1) (startWorkflow 7 []))) =
      (removeWf 7
         (setWf 7 (WorkflowState.AwaitingBottomText P1 "TOP")
            (setWf 7 (WorkflowState.AwaitingTopText P1) (startWorkflow 7 []))),
       WorkflowEvent.rendered P1 "TOP" "BOTTOM") :=
  ⟨(C2_meme_workflow [] 7 P1 "TOP" "BOTTOM" "nope" rfl (by decide) (by decide)).2.1,
   (C2_meme_workflow [] 7 P1 "TOP" "BOTTOM" "nope" rfl (by decide) (by decide)).2.2.2.2.1⟩

/-- Claim C3, counterexample: store_media_state does not leave the other
fields of the user state unchanged — a pack_name key present before the
call is gone afterwards, because the whole per-user dictionary is replaced
by a fresh two-key one. -/
theorem C3_counterexample :
    (getState 7 [(7, statePack)]).map UserState.pack_name = some (some "pack_7_1_by_bot") ∧
    (getState 7 (store_media_state 5 7 P1 [(7, statePack)])).map UserState.pack_name =
      some none :=
  ⟨rfl, rfl⟩

/-- Claim C3 as amended: store_media_state replaces the whole state of the
user with exactly the two keys last_media (the descriptor dict) and
last_update (the call time), creating the state if absent and dropping any
other key such as pack_name; states of other users are untouched. -/
theorem C3_store_replaces_state (states : Store) (uid : Nat) (now : Int) (m : MediaInfo) :
    getState uid (store_media_state now uid m states) =
      some { last_media := some m.to_dict, last_update := now, pack_name := none } ∧
    (∀ uid2, uid2 ≠ uid →
        getState uid2 (store_media_state now uid m states) = getState uid2 states) :=
  ⟨getState_setState_self uid _ states,
   fun uid2 h => getState_setState_ne uid uid2 _ states h⟩

/-- Witness for the amended C3: storing P1 for user 7 creates exactly the
two-key state, and the lookup of user 3 is unaffected. -/
theorem C3_store_replaces_state_witness :
    getState 7 (store_media_state 5 7 P1 [(3, statePack)]) =
      some { last_media := some P1.to_dict, last_update := 5, pack_name := none } ∧
    getState 3 (store_media_state 5 7 P1 [(3, statePack)]) =
      getState 3 [(3, statePack)] :=
  ⟨(C3_store_replaces_state [(3, statePack)] 7 5 P1).1,
   (C3_store_replaces_state [(3, statePack)] 7 5 P1).2 3 (by decide)⟩

/-- Claim C4 (code bug), evaluated at the failing input: for an animation
message whose file size 52428801 exceeds max_file_size = 52428800,
handle_animation itself reports the error and stores nothing, but
handle_media then stores the oversized animation as the lastMedia of the
user anyway (its trailing `if media_info:` store runs because `media_info`
was built before the size check), so the state of user 7 is mutated. -/
theorem C4_oversized_animation_still_stored :
    max_file_size < bigAnim.file_size ∧
    handle_animation_state 0 7 msgBigAnim [] = [] ∧
    getState 7 (handle_media_state 0 7 msgBigAnim []) =
      some { last_media := some (animToMediaInfo bigAnim).to_dict
             last_update := 0
             pack_name := none } := by
  refine ⟨by decide, rfl, rfl⟩

/-- Claim C5, counterexample: an expired state is served.  stExpired has
last_update = 0, which at call time 100000 is far past the one-hour window —
the sweep run at that time would delete it — yet get_last_media (which in
the source performs no expiry check and never calls _clean_old_states)
still returns the stored P1. -/
theorem C5_counterexample :
    stExpired.isExpired 100000 = true ∧
    clean_old_states 100000 [(1, stExpired)] = [] ∧
    get_last_media [(1, stExpired)] 1 msgPlain none = Except.ok (some P1) :=
  ⟨by decide, by decide, rfl⟩

/-- Claim C5 as amended: the expiry sweep runs only at the start of
handle_media (for a message with no media it is all that happens to the
store), the sweep does remove every expired entry, but get_last_media
performs no expiry check of its own — whatever last_media dict the state
of the user holds is returned regardless of its last_update. -/
theorem C5_sweep_only_in_handle_media (now : Int) (uid : Nat) (states : Store) :
    handle_media_state now uid {} states = clean_old_states now states ∧
    (∀ p, p ∈ states → p.2.isExpired now = true → p ∉ clean_old_states now states) ∧
    (∀ uid2 st lm (message : Message), getState uid2 states = some st →
        st.last_media = some lm → message.reply_to_message = none →
        get_last_media states uid2 message none = Except.ok (MediaInfo.from_dict lm)) := by
  refine ⟨rfl, ?_, ?_⟩
  · intro p hp he hmem
    unfold clean_old_states at hmem
    rw [List.mem_filter, he] at hmem
    simp at hmem
  · intro uid2 st lm message hg hl hr
    simp [get_last_media, hr, lastMediaTier, hg, hl]

/-- Witness for the amended C5: at time 100000 a no-media event sweeps the
store, stExpired is swept away, yet a direct get for user 1 on the unswept
store still serves P1. -/
theorem C5_sweep_only_in_handle_media_witness :
    handle_media_state 100000 7 {} [(1, stExpired)] =
      clean_old_states 100000 [(1, stExpired)] ∧
    (1, stExpired) ∉ clean_old_states 100000 [(1, stExpired)] ∧
    get_last_media [(1, stExpired)] 1 msgPlain none =
      Except.ok (MediaInfo.from_dict P1.to_dict) :=
  ⟨(C5_sweep_only_in_handle_media 100000 7 [(1, stExpired)]).1,
   (C5_sweep_only_in_handle_media 100000 7 [(1, stExpired)]).2.1
     (1, stExpired) (by simp) (by decide),
   (C5_sweep_only_in_handle_media 100000 7 [(1, stExpired)]).2.2
     1 stExpired P1.to_dict msgPlain rfl rfl rfl⟩

/-- Claim C6: the retry of kang_sticker on STICKERSET_INVALID recurses into
the same handler with no retry counter: in an environment where every
attempt fails with STICKERSET_INVALID, no amount of fuel makes the
recursion terminate with a success or a reported error — it only ever
exhausts the fuel, i.e. the unbounded Python recursion never terminates. -/
theorem C6_kang_retry_unbounded (attempt : Nat → AttemptOutcome)
    (h : ∀ i, attempt i = AttemptOutcome.stickersetInvalid) :
    ∀ fuel start, kang_sticker_retry attempt fuel start = KangResult.outOfFuel := by
  intro fuel
  induction fuel with
  | zero => intro start; rfl
  | succ n ih =>
      intro start
      simp [kang_sticker_retry, h start, ih (start + 1)]

/-- Witness for C6: five levels of fuel are exhausted when every attempt
raises STICKERSET_INVALID. -/
theorem C6_kang_retry_unbounded_witness :
    kang_sticker_retry (fun _ => AttemptOutcome.stickersetInvalid) 5 0 =
      KangResult.outOfFuel :=
  C6_kang_retry_unbounded (fun _ => AttemptOutcome.stickersetInvalid) (fun _ => rfl) 5 0

/-- Claim C7: the required-kind filter applies only to the stored-lastMedia
tier: a candidate produced by that tier always has the required kind,
while a reply-tier candidate (here a sticker in the replied-to message) is
returned whatever the required kind is. -/
theorem C7_required_kind_only_stored_tier (states : Store) (uid : Nat) (rt : MediaType) :
    (∀ mi, lastMediaTier states uid (some rt) = some mi → mi.type = rt) ∧
    (∀ (message : Message) reply s, message.reply_to_message = some reply →
        reply.photo = [] → reply.sticker = some s →
        get_last_media states uid message (some rt) =
          Except.ok (some (stickerToMediaInfo s))) := by
  constructor
  · intro mi h
    unfold lastMediaTier at h
    dsimp only at h
    repeat' split at h
    all_goals try exact absurd h (by simp)
    have htype := from_dict_type _ _ h
    simp_all
  · intro message reply s hr hrp hs
    simp [get_last_media, hr, hrp, hs]

/-- Witness for C7: with P1 stored for user 7, the stored tier filtered on
photo yields a photo; and replying to a sticker while requiring photo still
returns the sticker. -/
theorem C7_required_kind_only_stored_tier_witness :
    P1.type = MediaType.photo ∧
    get_last_media [] 7 msgReplySticker (some MediaType.photo) =
      Except.ok (some (stickerToMediaInfo Sdemo)) :=
  ⟨(C7_required_kind_only_stored_tier (store_media_state 0 7 P1 []) 7 MediaType.photo).1
     P1 rfl,
   (C7_required_kind_only_stored_tier [] 7 MediaType.photo).2
     msgReplySticker { sticker := some Sdemo } Sdemo rfl rfl rfl⟩

/-- Claim C8: for all sequences of store_media_state calls for a given
userId, a subsequent get with no reply and no kind filter yields exactly the
most recent MediaInfo passed for that userId, field for field. -/
theorem C8_last_store_wins (states : Store) (uid : Nat) (calls : List (Int × MediaInfo))
    (message : Message) (h1 : calls ≠ []) (h2 : message.reply_to_message = none) :
    get_last_media (applyStores uid calls states) uid message none =
      Except.ok (some (calls.getLast h1).2) := by
  simp [get_last_media, h2, lastMediaTier_applyStores uid calls states h1]

/-- Witness for C8: after storing P1 then S1 for user 7, the get returns S1. -/
theorem C8_last_store_wins_witness :
    get_last_media (applyStores 7 [(1, P1), (2, S1)] []) 7 msgPlain none =
      Except.ok (some S1) :=
  C8_last_store_wins [] 7 [(1, P1), (2, S1)] msgPlain (by simp) rfl

/-- Claim C9: the expiry sweep is idempotent at a fixed current time: a
second run removes nothing further; every survivor of a run is an unchanged
entry of the input store and is not expired, and every non-expired entry
survives. -/
theorem C9_sweep_idempotent (now : Int) (states : Store) :
    clean_old_states now (clean_old_states now states) = clean_old_states now states ∧
    (∀ p, p ∈ clean_old_states now states → p ∈ states ∧ p.2.isExpired now = false) ∧
    (∀ p, p ∈ states → p.2.isExpired now = false → p ∈ clean_old_states now states) := by
  refine ⟨?_, ?_, ?_⟩
  · unfold clean_old_states
    rw [List.filter_filter]
    simp
  · intro p hp
    unfold clean_old_states at hp
    rw [List.mem_filter] at hp
    exact ⟨hp.1, by simpa using hp.2⟩
  · intro p hp he
    unfold clean_old_states
    rw [List.mem_filter]
    exact ⟨hp, by simp [he]⟩

/-- Witness for C9: a store holding one expired and one fresh entry; the
double sweep equals the single sweep and the fresh entry survives. -/
theorem C9_sweep_idempotent_witness :
    clean_old_states 100000 (clean_old_states 100000 [(1, stExpired), (2, stFresh)]) =
      clean_old_states 100000 [(1, stExpired), (2, stFresh)] ∧
    (2, stFresh) ∈ clean_old_states 100000 [(1, stExpired), (2, stFresh)] :=
  ⟨(C9_sweep_idempotent 100000 [(1, stExpired), (2, stFresh)]).1,
   (C9_sweep_idempotent 100000 [(1, stExpired), (2, stFresh)]).2.2 (2, stFresh)
     (by simp) (by decide)⟩
